import Mathlib

/-!
Verification of the note persistence and retrieval core of the
voice-note application (`src/app.py`): collection bootstrap
(`assure_db_collection_exists`), embedding requests (`get_embedding`),
adding a note (`add_note_to_db`) and listing/searching notes
(`list_notes_from_db`).

The external vector store (Qdrant) is modelled as an explicit state
holding named collections of points; the store primitives mirror the
documented external interface used by the code (`collection_exists`,
`create_collection`, `count`, `upsert`, `scroll`, `search`).  The
external embedding provider is an oracle mapping an embedding request
to either a vector or a failure.  Embedding vectors and similarity
scores are abstracted over integers (the code never inspects their
numeric content).  Every provider or store call made by the code is
recorded in an event trace, so that claims about which calls are or
are not issued can be stated.
-/

namespace NotesApp

/-- Similarity metric of a collection, mirroring `qdrant_client.models.Distance`. -/
inductive Distance where
  | COSINE
  | EUCLID
  | DOT
  | MANHATTAN
deriving DecidableEq

/-- Vector configuration of a collection, mirroring `qdrant_client.models.VectorParams`. -/
structure VectorParams where
  size : Nat
  distance : Distance
deriving DecidableEq

/-- A stored point, mirroring `qdrant_client.models.PointStruct` with the
payload restricted to the `{"text": ...}` shape the application uses. -/
structure PointStruct where
  id : Nat
  vector : List Int
  payload : String
deriving DecidableEq

/-- A point paired with its store-reported similarity score, as returned by
the store's nearest-neighbor search. -/
structure ScoredPoint where
  pt : PointStruct
  score : Int
deriving DecidableEq

/-- A single collection held by the vector store: its vector configuration
and its points, kept in insertion order. -/
structure QCollection where
  cfg : VectorParams
  points : List PointStruct
deriving DecidableEq

/-- State of the external vector store: the named collections it holds. -/
structure QdrantState where
  colls : List (String × QCollection)
deriving DecidableEq

/-- An embedding request as sent by `get_embedding`:
`openai_client.embeddings.create(input=[text], model=..., dimensions=...)`. -/
structure EmbRequest where
  input : List String
  model : String
  dimensions : Nat
deriving DecidableEq

/-- The external embedding provider: maps a request to a vector, or to
`none` when the provider call fails or returns malformed data. -/
def EmbProvider : Type := EmbRequest → Option (List Int)

/-- The store's internal similarity scoring (cosine similarity between the
query vector and a stored vector), abstracted as an oracle. -/
def SimOracle : Type := List Int → List Int → Int

/-- Error taxonomy of the spec: provider failure surfaces as
`EmbeddingError`, store failure as `StoreError`. -/
inductive AppError where
  | EmbeddingError
  | StoreError
deriving DecidableEq

/-- One external call made by the code: a vector-store call or an
embedding-provider call. -/
inductive Event where
  | collectionExistsCall (name : String)
  | createCollectionCall (name : String) (params : VectorParams)
  | countCall (name : String)
  | upsertCall (name : String) (pts : List PointStruct)
  | scrollCall (name : String) (limit : Nat)
  | searchCall (name : String) (qvec : List Int) (limit : Nat)
  | embeddingCall (req : EmbRequest)
deriving DecidableEq

/-- A search/list result as returned to the UI: the note text and, for
similarity queries only, the store-reported score. -/
structure SearchResult where
  text : String
  score : Option Int
deriving DecidableEq

/-- Constant `EMBEDDING_MODEL = "text-embedding-3-large"` from the source. -/
def EMBEDDING_MODEL : String := "text-embedding-3-large"

/-- Constant `EMBEDDING_DIM = 3072` from the source. -/
def EMBEDDING_DIM : Nat := 3072

/-- Constant `QDRANT_COLLECTION_NAME = "notes"` from the source. -/
def QDRANT_COLLECTION_NAME : String := "notes"

/-- Look up a collection by name in the store state. -/
def lookupColl (name : String) (st : QdrantState) : Option QCollection :=
  (st.colls.find? (fun c => c.1 == name)).map (fun c => c.2)

/-- Store primitive `collection_exists(name)`. -/
def collection_exists (name : String) (st : QdrantState) : Bool :=
  (lookupColl name st).isSome

/-- Store primitive `create_collection(name, vectors_config)`: adds an empty
collection with the given configuration. -/
def create_collection (name : String) (cfg : VectorParams) (st : QdrantState) : QdrantState :=
  ⟨st.colls ++ [(name, ⟨cfg, []⟩)]⟩

/-- Store primitive `count(collection_name)`: the number of points in the
collection; fails with a store error when the collection is absent. -/
def qcount (name : String) (st : QdrantState) : Except AppError Nat :=
  match lookupColl name st with
  | some c => .ok c.points.length
  | none => .error .StoreError

/-- Upsert one point into a point list: replace the point with the same id
when present, append otherwise. -/
def upsertPoint (pts : List PointStruct) (p : PointStruct) : List PointStruct :=
  if pts.any (fun q => q.id == p.id) then
    pts.map (fun q => if q.id == p.id then p else q)
  else
    pts ++ [p]

/-- Store primitive `upsert(collection_name, points)`. -/
def upsert (name : String) (newPts : List PointStruct) (st : QdrantState) : QdrantState :=
  ⟨st.colls.map (fun c => if c.1 == name then (c.1, ⟨c.2.cfg, newPts.foldl upsertPoint c.2.points⟩) else c)⟩

/-- Store primitive `scroll(collection_name, limit)`: an unfiltered page of
at most `limit` points in store order (modelled as insertion order); fails
with a store error when the collection is absent. -/
def scroll (name : String) (limit : Nat) (st : QdrantState) : Except AppError (List PointStruct) :=
  match lookupColl name st with
  | some c => .ok (c.points.take limit)
  | none => .error .StoreError

/-- Insert a point into a list that is sorted by descending key, keeping it
sorted (the insertion step of the store's ranking). -/
def insertDesc (key : PointStruct → Int) (p : PointStruct) : List PointStruct → List PointStruct
  | [] => [p]
  | q :: qs => if key q ≤ key p then p :: q :: qs else q :: insertDesc key p qs

/-- Sort a point list by descending key (the store's ranking of search
results by similarity score). -/
def sortDescBy (key : PointStruct → Int) : List PointStruct → List PointStruct
  | [] => []
  | p :: ps => insertDesc key p (sortDescBy key ps)

/-- Store primitive `search(collection_name, query_vector, limit)`: the
stored points ranked by descending similarity to the query vector, each
with its score, truncated to `limit`; fails with a store error when the
collection is absent. -/
def qsearch (name : String) (qvec : List Int) (limit : Nat) (sim : SimOracle)
    (st : QdrantState) : Except AppError (List ScoredPoint) :=
  match lookupColl name st with
  | some c =>
      .ok (((sortDescBy (fun p => sim qvec p.vector) c.points).map
        (fun p => ⟨p, sim qvec p.vector⟩)).take limit)
  | none => .error .StoreError

/-- The embedding request issued for `text`:
`input=[text], model=EMBEDDING_MODEL, dimensions=EMBEDDING_DIM`. -/
def embedReqFor (text : String) : EmbRequest :=
  ⟨[text], EMBEDDING_MODEL, EMBEDDING_DIM⟩

/-- Embedding of `get_embedding(text)`: issues the request to the provider
and returns its vector; a provider failure surfaces as `EmbeddingError`. -/
def get_embedding (emb : EmbProvider) (text : String) : Except AppError (List Int) :=
  match emb (embedReqFor text) with
  | some v => .ok v
  | none => .error .EmbeddingError

/-- Embedding of `assure_db_collection_exists()`: when the named collection
is absent, create it with `VectorParams(size=EMBEDDING_DIM, distance=COSINE)`;
when present, do nothing.  Returns the new store state and the calls made. -/
def assure_db_collection_exists (st : QdrantState) : QdrantState × List Event :=
  if collection_exists QDRANT_COLLECTION_NAME st then
    (st, [.collectionExistsCall QDRANT_COLLECTION_NAME])
  else
    (create_collection QDRANT_COLLECTION_NAME ⟨EMBEDDING_DIM, .COSINE⟩ st,
     [.collectionExistsCall QDRANT_COLLECTION_NAME,
      .createCollectionCall QDRANT_COLLECTION_NAME ⟨EMBEDDING_DIM, .COSINE⟩])

/-- Embedding of `add_note_to_db(note_text)`: read the current point count,
compute the note's embedding, construct the point with `id = count + 1` and
payload the note text, and upsert it.  Returns the outcome, the resulting
store state, and the calls made, in order. -/
def add_note_to_db (emb : EmbProvider) (note_text : String) (st : QdrantState) :
    Except AppError Unit × QdrantState × List Event :=
  match qcount QDRANT_COLLECTION_NAME st with
  | .error e => (.error e, st, [.countCall QDRANT_COLLECTION_NAME])
  | .ok current_count =>
    match get_embedding emb note_text with
    | .error e =>
        (.error e, st,
         [.countCall QDRANT_COLLECTION_NAME, .embeddingCall (embedReqFor note_text)])
    | .ok v =>
        let point : PointStruct := ⟨current_count + 1, v, note_text⟩
        (.ok (), upsert QDRANT_COLLECTION_NAME [point] st,
         [.countCall QDRANT_COLLECTION_NAME, .embeddingCall (embedReqFor note_text),
          .upsertCall QDRANT_COLLECTION_NAME [point]])

/-- Python truthiness test `not query` for an optional string: `None` and
the empty string are falsy. -/
def pyFalsy : Option String → Bool
  | none => true
  | some s => s == ""

/-- Embedding of `list_notes_from_db(query)`: when `query` is falsy, scroll
an unfiltered page of at most 10 points, each result with no score; when
truthy, embed the query and run a similarity search with limit 10, each
result carrying the store-reported score.  Returns the outcome and the
calls made, in order. -/
def list_notes_from_db (emb : EmbProvider) (sim : SimOracle) (query : Option String)
    (st : QdrantState) : Except AppError (List SearchResult) × List Event :=
  if pyFalsy query then
    match scroll QDRANT_COLLECTION_NAME 10 st with
    | .error e => (.error e, [.scrollCall QDRANT_COLLECTION_NAME 10])
    | .ok notes =>
        (.ok (notes.map (fun n => ⟨n.payload, none⟩)),
         [.scrollCall QDRANT_COLLECTION_NAME 10])
  else
    match get_embedding emb (query.getD ("")) with
    | .error e => (.error e, [.embeddingCall (embedReqFor (query.getD ("")))])
    | .ok v =>
      match qsearch QDRANT_COLLECTION_NAME v 10 sim st with
      | .error e =>
          (.error e,
           [.embeddingCall (embedReqFor (query.getD (""))),
            .searchCall QDRANT_COLLECTION_NAME v 10])
      | .ok notes =>
          (.ok (notes.map (fun n => ⟨n.pt.payload, some n.score⟩)),
           [.embeddingCall (embedReqFor (query.getD (""))),
            .searchCall QDRANT_COLLECTION_NAME v 10])

/-- Iterated bootstrap: run `assure_db_collection_exists` N times in
sequence, threading the store state and concatenating the traces. -/
def assureN : Nat → QdrantState → QdrantState × List Event
  | 0, st => (st, [])
  | n + 1, st =>
      let r := assure_db_collection_exists st
      let rest := assureN n r.1
      (rest.1, r.2 ++ rest.2)

/-- Whether an event is a collection-creation call. -/
def isCreate : Event → Bool
  | .createCollectionCall _ _ => true
  | _ => false

/-- Whether an event is a store-mutation or store-search call (upsert or
search). -/
def isUpsertOrSearch : Event → Bool
  | .upsertCall _ _ => true
  | .searchCall _ _ _ => true
  | _ => false

/-- Fixed embedding vector used by the concrete witness scenarios. -/
def vec1 : List Int := [1]

/-- A provider that always succeeds, returning `vec1`. -/
def embK : EmbProvider := fun _ => some vec1

/-- A provider whose calls always fail (the failing stub of the spec). -/
def embFail : EmbProvider := fun _ => none

/-- A similarity oracle assigning score 0 to every pair of vectors. -/
def simZero : SimOracle := fun _ _ => 0

/-- A list of `n` points with ids `1..n` and payload `"note"`. -/
def mkPts (n : Nat) : List PointStruct :=
  (List.range n).map (fun i => ⟨i + 1, vec1, "note"⟩)

/-- A store holding exactly the `"notes"` collection with the given points. -/
def stWith (pts : List PointStruct) : QdrantState :=
  ⟨[(QDRANT_COLLECTION_NAME, ⟨⟨EMBEDDING_DIM, Distance.COSINE⟩, pts⟩)]⟩

/-- A store whose `"notes"` collection holds 5 points with ids `1..5`. -/
def st5 : QdrantState := stWith (mkPts 5)

/-- A store whose `"notes"` collection holds 10 points with ids `1..10`. -/
def st10 : QdrantState := stWith (mkPts 10)

/-- A store whose `"notes"` collection holds 15 points with ids `1..15`. -/
def st15 : QdrantState := stWith (mkPts 15)

/-- A store whose `"notes"` collection exists and is empty. -/
def stEmptyColl : QdrantState := stWith []

/-- A store holding no collection at all. -/
def stBare : QdrantState := ⟨[]⟩

/-- A similarity oracle scoring a stored vector by its first entry. -/
def simFirst : SimOracle := fun _ w => w.headD 0

/-- A store whose `"notes"` collection holds two points with distinct
vectors, used to exercise search ranking. -/
def stTwo : QdrantState := stWith [⟨1, [1], "a"⟩, ⟨2, [2], "b"⟩]

/-- The scored points `simFirst` ranking produces on `stTwo`. -/
def nsTwo : List ScoredPoint := [⟨⟨2, [2], "b"⟩, 2⟩, ⟨⟨1, [1], "a"⟩, 1⟩]

/-- A store whose `"notes"` collection holds points with ids 1 and 3, so
its count is 2 while a point with id 3 = count + 1 already exists. -/
def stGap : QdrantState := stWith [⟨1, vec1, "a"⟩, ⟨3, vec1, "b"⟩]

/-- Upserting points into a collection changes the looked-up collection by
folding the single-point upsert over its point list. -/
theorem lookupColl_upsert (name : String) (pts : List PointStruct) (st : QdrantState) :
    lookupColl name (upsert name pts st) =
      (lookupColl name st).map (fun c => ⟨c.cfg, pts.foldl upsertPoint c.points⟩) := by
  obtain ⟨l⟩ := st
  unfold lookupColl upsert
  simp only
  rw [List.find?_map]
  have hpred : ((fun c => c.1 == name) ∘
      (fun c : String × QCollection => if (c.1 == name) = true then
        (c.1, ⟨c.2.cfg, pts.foldl upsertPoint c.2.points⟩) else c)) =
      (fun c : String × QCollection => c.1 == name) := by
    funext c
    by_cases h : c.1 = name <;> simp [h]
  rw [hpred]
  cases hf : l.find? (fun c => c.1 == name) with
  | none => rfl
  | some c =>
    have hc0 := List.find?_some hf
    have hc : c.1 = name := beq_iff_eq.mp hc0
    simp [hc]

/-- The point being upserted is a member of the updated point list. -/
theorem mem_upsertPoint_self (pts : List PointStruct) (p : PointStruct) :
    p ∈ upsertPoint pts p := by
  unfold upsertPoint
  by_cases h : pts.any (fun q => q.id == p.id) = true
  · rw [if_pos h]
    obtain ⟨q, hq, hid⟩ := List.any_eq_true.mp h
    exact List.mem_map.mpr ⟨q, hq, by simp [hid]⟩
  · rw [if_neg h]
    simp

/-- Upserting one point grows the point list by at most one element. -/
theorem length_upsertPoint (pts : List PointStruct) (p : PointStruct) :
    (upsertPoint pts p).length ≤ pts.length + 1 := by
  unfold upsertPoint
  split
  · simp
  · simp

/-- When a point with the same id is already present, upserting replaces it
in place. -/
theorem upsertPoint_replace (pts : List PointStruct) (p : PointStruct)
    (h : pts.any (fun q => q.id == p.id) = true) :
    upsertPoint pts p = pts.map (fun q => if q.id == p.id then p else q) := by
  unfold upsertPoint
  rw [if_pos h]

/-- Membership in the sorted-insertion of a point: the inserted point or one
of the old ones. -/
theorem mem_insertDesc (key : PointStruct → Int) (p x : PointStruct) (l : List PointStruct) :
    x ∈ insertDesc key p l ↔ x = p ∨ x ∈ l := by
  induction l with
  | nil => simp [insertDesc]
  | cons q qs ih =>
    unfold insertDesc
    by_cases h : key q ≤ key p
    · rw [if_pos h]
      simp only [List.mem_cons]
    · rw [if_neg h]
      simp only [List.mem_cons, ih]
      tauto

/-- Sorted insertion preserves descending-key pairwise order. -/
theorem pairwise_insertDesc (key : PointStruct → Int) (p : PointStruct) (l : List PointStruct)
    (h : l.Pairwise (fun a b => key b ≤ key a)) :
    (insertDesc key p l).Pairwise (fun a b => key b ≤ key a) := by
  induction l with
  | nil => simp [insertDesc]
  | cons q qs ih =>
    rw [List.pairwise_cons] at h
    obtain ⟨hq, hqs⟩ := h
    unfold insertDesc
    by_cases hk : key q ≤ key p
    · rw [if_pos hk]
      refine List.pairwise_cons.mpr ⟨?_, List.pairwise_cons.mpr ⟨hq, hqs⟩⟩
      intro b hb
      rcases List.mem_cons.mp hb with rfl | hb
      · exact hk
      · exact le_trans (hq b hb) hk
    · rw [if_neg hk]
      refine List.pairwise_cons.mpr ⟨?_, ih hqs⟩
      intro b hb
      rcases (mem_insertDesc key p b qs).mp hb with rfl | hb
      · exact le_of_not_le hk
      · exact hq b hb

/-- The store's ranking is pairwise descending in the key. -/
theorem pairwise_sortDescBy (key : PointStruct → Int) (l : List PointStruct) :
    (sortDescBy key l).Pairwise (fun a b => key b ≤ key a) := by
  induction l with
  | nil => exact List.Pairwise.nil
  | cons p ps ih => exact pairwise_insertDesc key p _ ih

/-- The scores of a successful store search are sorted in descending order. -/
theorem qsearch_scores_sorted (name : String) (qvec : List Int) (limit : Nat)
    (sim : SimOracle) (st : QdrantState) (ns : List ScoredPoint)
    (h : qsearch name qvec limit sim st = .ok ns) :
    (ns.map (fun n => n.score)).Sorted (· ≥ ·) := by
  unfold qsearch at h
  cases hl : lookupColl name st <;> rw [hl] at h
  · cases h
  case some c =>
    simp only [Except.ok.injEq] at h
    subst h
    have h1 := pairwise_sortDescBy (fun p => sim qvec p.vector) c.points
    have h2 : ((sortDescBy (fun p => sim qvec p.vector) c.points).map
        (fun p => (⟨p, sim qvec p.vector⟩ : ScoredPoint))).Pairwise
          (fun a b => b.score ≤ a.score) :=
      h1.map _ (fun a b hab => hab)
    have h3 := h2.sublist (List.take_sublist limit _)
    exact h3.map _ (fun a b hab => hab)

/-- Each scored point returned by a successful store search carries exactly
the oracle's similarity between the query vector and its stored vector. -/
theorem qsearch_score_eq (name : String) (qvec : List Int) (limit : Nat)
    (sim : SimOracle) (st : QdrantState) (ns : List ScoredPoint)
    (h : qsearch name qvec limit sim st = .ok ns) :
    ∀ n ∈ ns, n.score = sim qvec n.pt.vector := by
  unfold qsearch at h
  cases hl : lookupColl name st <;> rw [hl] at h
  · cases h
  case some c =>
    simp only [Except.ok.injEq] at h
    subst h
    intro n hn
    obtain ⟨p, _, hp⟩ := List.mem_map.mp (List.mem_of_mem_take hn)
    subst hp
    rfl

/-- A successful store search returns at most `limit` results. -/
theorem qsearch_length_le (name : String) (qvec : List Int) (limit : Nat)
    (sim : SimOracle) (st : QdrantState) (ns : List ScoredPoint)
    (h : qsearch name qvec limit sim st = .ok ns) :
    ns.length ≤ limit := by
  unfold qsearch at h
  cases hl : lookupColl name st <;> rw [hl] at h
  · cases h
  · simp only [Except.ok.injEq] at h
    subst h
    simp [List.length_take]

/-- A successful scroll page holds at most `limit` points. -/
theorem scroll_length_le (name : String) (limit : Nat) (st : QdrantState)
    (pts : List PointStruct) (h : scroll name limit st = .ok pts) :
    pts.length ≤ limit := by
  unfold scroll at h
  cases hl : lookupColl name st <;> rw [hl] at h
  · cases h
  · simp only [Except.ok.injEq] at h
    subst h
    simp [List.length_take]

/-- After creating a collection under a name, an existence check for that
name succeeds. -/
theorem collection_exists_create (name : String) (cfg : VectorParams) (st : QdrantState) :
    collection_exists name (create_collection name cfg st) = true := by
  obtain ⟨l⟩ := st
  unfold collection_exists lookupColl create_collection
  simp only
  induction l with
  | nil => simp
  | cons a l ih =>
    by_cases h : (a.1 == name) = true
    · simp [List.find?_cons, h]
    · simp only [List.cons_append, List.find?_cons, h]
      exact ih

/-- When the collection is present, the bootstrap only checks existence and
leaves the store unchanged. -/
theorem assure_of_present (st : QdrantState)
    (h : collection_exists QDRANT_COLLECTION_NAME st = true) :
    assure_db_collection_exists st =
      (st, [Event.collectionExistsCall QDRANT_COLLECTION_NAME]) := by
  unfold assure_db_collection_exists
  simp [h]

/-- When the collection is absent, the bootstrap creates it with
`size = EMBEDDING_DIM` and cosine distance. -/
theorem assure_of_absent (st : QdrantState)
    (h : collection_exists QDRANT_COLLECTION_NAME st = false) :
    assure_db_collection_exists st =
      (create_collection QDRANT_COLLECTION_NAME ⟨EMBEDDING_DIM, Distance.COSINE⟩ st,
       [Event.collectionExistsCall QDRANT_COLLECTION_NAME,
        Event.createCollectionCall QDRANT_COLLECTION_NAME ⟨EMBEDDING_DIM, Distance.COSINE⟩]) := by
  unfold assure_db_collection_exists
  simp [h]

/-- Repeated bootstrap on a store that already holds the collection leaves
the state unchanged and only issues existence checks. -/
theorem assureN_of_present (n : Nat) (st : QdrantState)
    (h : collection_exists QDRANT_COLLECTION_NAME st = true) :
    assureN n st =
      (st, List.replicate n (Event.collectionExistsCall QDRANT_COLLECTION_NAME)) := by
  induction n with
  | zero => rfl
  | succ n ih =>
    show (let r := assure_db_collection_exists st
          let rest := assureN n r.1
          (rest.1, r.2 ++ rest.2)) = _
    rw [assure_of_present st h]
    simp only
    rw [ih]
    simp [List.replicate_succ]

/-- Unfolding of one bootstrap iteration. -/
theorem assureN_succ (n : Nat) (st : QdrantState) :
    assureN (n + 1) st =
      ((assureN n (assure_db_collection_exists st).1).1,
       (assure_db_collection_exists st).2 ++ (assureN n (assure_db_collection_exists st).1).2) :=
  rfl

/-- No existence-check event is a creation call. -/
theorem countP_isCreate_replicate (n : Nat) (name : String) :
    ((List.replicate n (Event.collectionExistsCall name)).countP isCreate) = 0 := by
  rw [List.countP_eq_zero]
  intro a ha
  rw [List.eq_of_mem_replicate ha]
  simp [isCreate]

/-- C4: `assure_db_collection_exists` is idempotent.  When the collection is
absent it creates it exactly once with vector size `EMBEDDING_DIM = 3072`
and cosine distance, and N+1 repeated calls issue exactly one creation call
overall; when the collection is present it issues no creation call, raises
no error, and leaves the store unchanged. -/
theorem bootstrap_idempotent (st : QdrantState) (N : Nat) :
    (collection_exists QDRANT_COLLECTION_NAME st = false →
      assure_db_collection_exists st =
        (create_collection QDRANT_COLLECTION_NAME ⟨EMBEDDING_DIM, Distance.COSINE⟩ st,
         [Event.collectionExistsCall QDRANT_COLLECTION_NAME,
          Event.createCollectionCall QDRANT_COLLECTION_NAME ⟨EMBEDDING_DIM, Distance.COSINE⟩])
      ∧ ((assureN (N + 1) st).2.countP isCreate) = 1)
    ∧ (collection_exists QDRANT_COLLECTION_NAME st = true →
      assure_db_collection_exists st = (st, [Event.collectionExistsCall QDRANT_COLLECTION_NAME])
      ∧ ((assureN N st).2.countP isCreate) = 0)
    ∧ EMBEDDING_DIM = 3072 := by
  refine ⟨fun h => ⟨assure_of_absent st h, ?_⟩, fun h => ⟨assure_of_present st h, ?_⟩, rfl⟩
  · rw [assureN_succ, assure_of_absent st h]
    simp only
    rw [assureN_of_present N _ (collection_exists_create QDRANT_COLLECTION_NAME _ st)]
    simp only
    rw [List.countP_append, countP_isCreate_replicate]
    simp [List.countP_cons, isCreate]
  · rw [assureN_of_present N st h]
    simp only
    exact countP_isCreate_replicate N QDRANT_COLLECTION_NAME

/-- Witness for C4: on a bare store, three bootstrap calls issue exactly one
creation call; on a store already holding the collection, two bootstrap
calls issue none. -/
theorem bootstrap_idempotent_witness :
    ((assureN 3 stBare).2.countP isCreate) = 1
    ∧ ((assureN 2 stEmptyColl).2.countP isCreate) = 0 :=
  ⟨((bootstrap_idempotent stBare 2).1 (by decide)).2,
   ((bootstrap_idempotent stEmptyColl 2).2.1 (by decide)).2⟩

/-- Unfolding of a successful `add_note_to_db`: count read `n`, embedding
returned `v`, so the point `⟨n + 1, v, t⟩` is upserted. -/
theorem add_note_eq (emb : EmbProvider) (t : String) (st : QdrantState)
    (n : Nat) (v : List Int)
    (hc : qcount QDRANT_COLLECTION_NAME st = .ok n)
    (he : emb (embedReqFor t) = some v) :
    add_note_to_db emb t st =
      (Except.ok (), upsert QDRANT_COLLECTION_NAME [⟨n + 1, v, t⟩] st,
       [Event.countCall QDRANT_COLLECTION_NAME, Event.embeddingCall (embedReqFor t),
        Event.upsertCall QDRANT_COLLECTION_NAME [⟨n + 1, v, t⟩]]) := by
  unfold add_note_to_db
  rw [hc]
  unfold get_embedding
  rw [he]

/-- Unfolding of `list_notes_from_db` on a falsy query: the scroll page is
returned unscored and the only call issued is the scroll. -/
theorem list_notes_scroll_path (emb : EmbProvider) (sim : SimOracle) (query : Option String)
    (st : QdrantState) (pts : List PointStruct)
    (hf : pyFalsy query = true)
    (hs : scroll QDRANT_COLLECTION_NAME 10 st = .ok pts) :
    list_notes_from_db emb sim query st =
      (.ok (pts.map (fun p => ⟨p.payload, none⟩)),
       [Event.scrollCall QDRANT_COLLECTION_NAME 10]) := by
  unfold list_notes_from_db
  rw [if_pos hf, hs]

/-- Unfolding of `list_notes_from_db` on a present non-empty query with a
successful embedding and search: the scored results are returned and the
calls issued are the embedding request and the search. -/
theorem list_notes_search_path (emb : EmbProvider) (sim : SimOracle) (q : String)
    (st : QdrantState) (v : List Int) (ns : List ScoredPoint)
    (hq : q ≠ "")
    (he : emb (embedReqFor q) = some v)
    (hs : qsearch QDRANT_COLLECTION_NAME v 10 sim st = .ok ns) :
    list_notes_from_db emb sim (some q) st =
      (.ok (ns.map (fun n => ⟨n.pt.payload, some n.score⟩)),
       [Event.embeddingCall (embedReqFor q),
        Event.searchCall QDRANT_COLLECTION_NAME v 10]) := by
  unfold list_notes_from_db
  rw [if_neg (show ¬ pyFalsy (some q) = true by simp [pyFalsy, hq])]
  show (match get_embedding emb q with
        | Except.error e => _
        | Except.ok v => _) = _
  unfold get_embedding
  rw [he]
  show (match qsearch QDRANT_COLLECTION_NAME v 10 sim st with
        | Except.error e => _
        | Except.ok notes => _) = _
  rw [hs]
  rfl

/-- C1: on any store where the collection's point count reads `n` and the
embedding succeeds, `add_note_to_db` constructs and upserts exactly one
point with `id = n + 1`, the computed vector, and the note text as payload. -/
theorem add_note_assigns_id_count_succ (emb : EmbProvider) (t : String) (st : QdrantState)
    (n : Nat) (v : List Int)
    (hc : qcount QDRANT_COLLECTION_NAME st = .ok n)
    (he : emb (embedReqFor t) = some v) :
    add_note_to_db emb t st =
      (Except.ok (), upsert QDRANT_COLLECTION_NAME [⟨n + 1, v, t⟩] st,
       [Event.countCall QDRANT_COLLECTION_NAME, Event.embeddingCall (embedReqFor t),
        Event.upsertCall QDRANT_COLLECTION_NAME [⟨n + 1, v, t⟩]]) :=
  add_note_eq emb t st n v hc he

/-- Witness for C1: on the store with 5 points, adding note `"x"` upserts a
point with id 6, and the following add of `"y"` upserts a point with id 7. -/
theorem add_note_assigns_id_count_succ_witness :
    add_note_to_db embK ("x") st5 =
      (Except.ok (), upsert QDRANT_COLLECTION_NAME [⟨6, vec1, ("x")⟩] st5,
       [Event.countCall QDRANT_COLLECTION_NAME, Event.embeddingCall (embedReqFor ("x")),
        Event.upsertCall QDRANT_COLLECTION_NAME [⟨6, vec1, ("x")⟩]])
    ∧ add_note_to_db embK ("y") (add_note_to_db embK ("x") st5).2.1 =
      (Except.ok (),
       upsert QDRANT_COLLECTION_NAME [⟨7, vec1, ("y")⟩] (add_note_to_db embK ("x") st5).2.1,
       [Event.countCall QDRANT_COLLECTION_NAME, Event.embeddingCall (embedReqFor ("y")),
        Event.upsertCall QDRANT_COLLECTION_NAME [⟨7, vec1, ("y")⟩]]) :=
  ⟨add_note_assigns_id_count_succ embK ("x") st5 5 vec1 (by rfl) rfl,
   add_note_assigns_id_count_succ embK ("y") (add_note_to_db embK ("x") st5).2.1 6 vec1
     (by rfl) rfl⟩

/-- C2: when the embedding provider fails, `add_note_to_db` fails with
`EmbeddingError`, leaves the store state unchanged, and issues no upsert
call; `list_notes_from_db` with a present non-empty query fails with
`EmbeddingError` and issues no search call. -/
theorem provider_failure_propagation (emb : EmbProvider) (sim : SimOracle)
    (t q : String) (st : QdrantState) (n : Nat)
    (hc : qcount QDRANT_COLLECTION_NAME st = .ok n)
    (hq : q ≠ "")
    (ht : emb (embedReqFor t) = none)
    (hqe : emb (embedReqFor q) = none) :
    (add_note_to_db emb t st).1 = .error .EmbeddingError
    ∧ (add_note_to_db emb t st).2.1 = st
    ∧ ((add_note_to_db emb t st).2.2.filter isUpsertOrSearch) = []
    ∧ (list_notes_from_db emb sim (some q) st).1 = .error .EmbeddingError
    ∧ ((list_notes_from_db emb sim (some q) st).2.filter isUpsertOrSearch) = [] := by
  have h1 : add_note_to_db emb t st =
      (.error .EmbeddingError, st,
       [Event.countCall QDRANT_COLLECTION_NAME, Event.embeddingCall (embedReqFor t)]) := by
    unfold add_note_to_db
    rw [hc]
    unfold get_embedding
    rw [ht]
  have hf : pyFalsy (some q) = false := by simp [pyFalsy, hq]
  have h2 : list_notes_from_db emb sim (some q) st =
      (.error .EmbeddingError, [Event.embeddingCall (embedReqFor q)]) := by
    unfold list_notes_from_db
    rw [hf]
    simp [get_embedding, hqe]
  rw [h1, h2]
  simp [List.filter, isUpsertOrSearch]

/-- Witness for C2: the failing provider stub on the empty collection. -/
theorem provider_failure_propagation_witness :
    (add_note_to_db embFail ("x") stEmptyColl).1 = .error .EmbeddingError
    ∧ (add_note_to_db embFail ("x") stEmptyColl).2.1 = stEmptyColl
    ∧ ((add_note_to_db embFail ("x") stEmptyColl).2.2.filter isUpsertOrSearch) = []
    ∧ (list_notes_from_db embFail simZero (some ("q")) stEmptyColl).1 = .error .EmbeddingError
    ∧ ((list_notes_from_db embFail simZero (some ("q")) stEmptyColl).2.filter
        isUpsertOrSearch) = [] :=
  provider_failure_propagation embFail simZero ("x") ("q") stEmptyColl 0
    (by rfl) (by decide) rfl rfl

/-- C5: every successful `list_notes_from_db` outcome, for any store state
and any query (absent or present), holds at most 10 results. -/
theorem limit_enforcement (emb : EmbProvider) (sim : SimOracle) (query : Option String)
    (st : QdrantState) (rs : List SearchResult)
    (h : (list_notes_from_db emb sim query st).1 = .ok rs) :
    rs.length ≤ 10 := by
  unfold list_notes_from_db at h
  by_cases hf : pyFalsy query = true
  · rw [if_pos hf] at h
    cases hs : scroll QDRANT_COLLECTION_NAME 10 st <;> rw [hs] at h
    · simp at h
    · rename_i pts
      simp only [Except.ok.injEq] at h
      rw [← h]
      simp only [List.length_map]
      exact scroll_length_le QDRANT_COLLECTION_NAME 10 st pts hs
  · rw [if_neg hf] at h
    cases hqe : get_embedding emb (query.getD ("")) <;> rw [hqe] at h
    · simp at h
    · rename_i v
      simp only at h
      cases hsr : qsearch QDRANT_COLLECTION_NAME v 10 sim st <;> rw [hsr] at h
      · simp at h
      · rename_i ns
        simp only [Except.ok.injEq] at h
        rw [← h]
        simp only [List.length_map]
        exact qsearch_length_le QDRANT_COLLECTION_NAME v 10 sim st ns hsr

/-- Witness for C5: on a store holding 15 notes, both the absent-query
listing and a present-query search return exactly 10 results. -/
theorem limit_enforcement_witness :
    (List.replicate 10 (⟨"note", none⟩ : SearchResult)).length ≤ 10
    ∧ (List.replicate 10 (⟨"note", some 0⟩ : SearchResult)).length ≤ 10 :=
  ⟨limit_enforcement embK simZero none st15 _ rfl,
   limit_enforcement embK simZero (some ("q")) st15 _ rfl⟩

/-- C6: on a present non-empty query with successful embedding and search,
`list_notes_from_db` computes the query's embedding, issues the
nearest-neighbor search, and returns the store's scored results; the scores
are in descending order and each equals the store-reported similarity of
the corresponding point. -/
theorem search_query_scored_sorted (emb : EmbProvider) (sim : SimOracle) (q : String)
    (st : QdrantState) (v : List Int) (ns : List ScoredPoint)
    (hq : q ≠ "")
    (he : emb (embedReqFor q) = some v)
    (hs : qsearch QDRANT_COLLECTION_NAME v 10 sim st = .ok ns) :
    (list_notes_from_db emb sim (some q) st).1 =
      .ok (ns.map (fun n => ⟨n.pt.payload, some n.score⟩))
    ∧ (list_notes_from_db emb sim (some q) st).2 =
      [Event.embeddingCall (embedReqFor q), Event.searchCall QDRANT_COLLECTION_NAME v 10]
    ∧ (ns.map (fun n => n.score)).Sorted (· ≥ ·)
    ∧ (∀ n ∈ ns, n.score = sim v n.pt.vector) := by
  rw [list_notes_search_path emb sim q st v ns hq he hs]
  exact ⟨rfl, rfl, qsearch_scores_sorted QDRANT_COLLECTION_NAME v 10 sim st ns hs,
    qsearch_score_eq QDRANT_COLLECTION_NAME v 10 sim st ns hs⟩

/-- Witness for C6: on a two-note store whose stored vectors score 1 and 2,
the search returns the higher-scored note first, scores descending. -/
theorem search_query_scored_sorted_witness :
    (list_notes_from_db embK simFirst (some ("q")) stTwo).1 =
      .ok [⟨"b", some 2⟩, ⟨"a", some 1⟩]
    ∧ ([(2 : Int), 1]).Sorted (· ≥ ·) := by
  have h := search_query_scored_sorted embK simFirst ("q") stTwo vec1 nsTwo
    (by decide) rfl rfl
  exact ⟨h.1, h.2.2.1⟩

/-- C7: on an absent or empty query, `list_notes_from_db` takes the
unfiltered scroll path — the only call issued is the scroll, so no
embedding is computed and no search is run — and every returned result has
no score. -/
theorem falsy_query_list_path (emb : EmbProvider) (sim : SimOracle) (query : Option String)
    (st : QdrantState) (pts : List PointStruct)
    (hf : pyFalsy query = true)
    (hs : scroll QDRANT_COLLECTION_NAME 10 st = .ok pts) :
    (list_notes_from_db emb sim query st).1 = .ok (pts.map (fun p => ⟨p.payload, none⟩))
    ∧ (list_notes_from_db emb sim query st).2 = [Event.scrollCall QDRANT_COLLECTION_NAME 10]
    ∧ (∀ r ∈ pts.map (fun p => (⟨p.payload, none⟩ : SearchResult)), r.score = none) := by
  rw [list_notes_scroll_path emb sim query st pts hf hs]
  refine ⟨rfl, rfl, ?_⟩
  intro r hr
  obtain ⟨p, _, hp⟩ := List.mem_map.mp hr
  rw [← hp]

/-- Witness for C7: the absent query and the empty-string query on the
five-note store both take the scroll path. -/
theorem falsy_query_list_path_witness :
    (list_notes_from_db embK simZero none st5).2 =
      [Event.scrollCall QDRANT_COLLECTION_NAME 10]
    ∧ (list_notes_from_db embK simZero (some ("")) st5).2 =
      [Event.scrollCall QDRANT_COLLECTION_NAME 10] := by
  have h1 := falsy_query_list_path embK simZero none st5 (mkPts 5) rfl rfl
  have h2 := falsy_query_list_path embK simZero (some ("")) st5 (mkPts 5) (by decide) rfl
  exact ⟨h1.2.1, h2.2.1⟩

/-- C8: on a store whose collection exists and is empty, the absent-query
listing returns the empty sequence (a non-error outcome). -/
theorem empty_collection_list_ok (emb : EmbProvider) (sim : SimOracle)
    (st : QdrantState) (c : QCollection)
    (hl : lookupColl QDRANT_COLLECTION_NAME st = some c)
    (hp : c.points = []) :
    list_notes_from_db emb sim none st =
      (.ok [], [Event.scrollCall QDRANT_COLLECTION_NAME 10]) := by
  have hs : scroll QDRANT_COLLECTION_NAME 10 st = .ok [] := by
    unfold scroll
    rw [hl]
    show Except.ok (c.points.take 10) = Except.ok ([] : List PointStruct)
    rw [hp]
    rfl
  exact list_notes_scroll_path emb sim none st [] rfl hs

/-- Witness for C8: the concrete empty collection. -/
theorem empty_collection_list_ok_witness :
    list_notes_from_db embK simZero none stEmptyColl =
      (.ok [], [Event.scrollCall QDRANT_COLLECTION_NAME 10]) :=
  empty_collection_list_ok embK simZero stEmptyColl
    ⟨⟨EMBEDDING_DIM, Distance.COSINE⟩, []⟩ rfl rfl

/-- C3 counterexample: on a store already holding 10 notes, adding `"x"`
succeeds, yet the absent-query listing returns the first 10-point page
only — 10 results, none of whose texts is `"x"` — so the round-trip claim
fails as universally stated. -/
theorem roundtrip_fails_beyond_limit :
    (add_note_to_db embK ("x") st10).1 = Except.ok ()
    ∧ (list_notes_from_db embK simZero none (add_note_to_db embK ("x") st10).2.1).1 =
        .ok (List.replicate 10 ⟨"note", none⟩)
    ∧ ((List.replicate 10 (⟨"note", none⟩ : SearchResult)).filter
        (fun r => r.text == ("x"))) = [] :=
  ⟨rfl, rfl, by decide⟩

/-- C3 amended: provided the collection holds at most 9 points when the
note is added (so that the 10-result page can include the new point), a
successful `add_note_to_db t` is followed by an absent-query listing that
contains the result `⟨t, no score⟩`. -/
theorem roundtrip_small_store (emb : EmbProvider) (sim : SimOracle) (t : String)
    (st : QdrantState) (c : QCollection) (v : List Int)
    (hl : lookupColl QDRANT_COLLECTION_NAME st = some c)
    (hlen : c.points.length ≤ 9)
    (he : emb (embedReqFor t) = some v) :
    (add_note_to_db emb t st).1 = Except.ok ()
    ∧ ∃ rs, (list_notes_from_db emb sim none (add_note_to_db emb t st).2.1).1 = .ok rs
        ∧ (⟨t, none⟩ : SearchResult) ∈ rs := by
  have hc : qcount QDRANT_COLLECTION_NAME st = .ok c.points.length := by
    unfold qcount
    rw [hl]
  have h1 := add_note_eq emb t st c.points.length v hc he
  have hl2 : lookupColl QDRANT_COLLECTION_NAME (add_note_to_db emb t st).2.1 =
      some ⟨c.cfg, upsertPoint c.points ⟨c.points.length + 1, v, t⟩⟩ := by
    rw [h1]
    simp only
    rw [lookupColl_upsert, hl]
    rfl
  have hlen2 : (upsertPoint c.points ⟨c.points.length + 1, v, t⟩).length ≤ 10 :=
    le_trans (length_upsertPoint c.points _) (by omega)
  have hs : scroll QDRANT_COLLECTION_NAME 10 (add_note_to_db emb t st).2.1 =
      .ok (upsertPoint c.points ⟨c.points.length + 1, v, t⟩) := by
    unfold scroll
    rw [hl2]
    show Except.ok ((upsertPoint c.points ⟨c.points.length + 1, v, t⟩).take 10) = _
    rw [List.take_of_length_le hlen2]
  have h2 := list_notes_scroll_path emb sim none (add_note_to_db emb t st).2.1 _ rfl hs
  refine ⟨by rw [h1],
    (upsertPoint c.points ⟨c.points.length + 1, v, t⟩).map (fun q => ⟨q.payload, none⟩),
    ?_, ?_⟩
  · rw [h2]
  · exact List.mem_map.mpr ⟨_, mem_upsertPoint_self c.points _, rfl⟩

/-- Witness for the amended C3: adding `"x"` to the five-note store and
listing finds `⟨"x", no score⟩`. -/
theorem roundtrip_small_store_witness :
    (add_note_to_db embK ("x") st5).1 = Except.ok ()
    ∧ ∃ rs, (list_notes_from_db embK simZero none (add_note_to_db embK ("x") st5).2.1).1 =
        .ok rs ∧ (⟨"x", none⟩ : SearchResult) ∈ rs :=
  roundtrip_small_store embK simZero ("x") st5
    ⟨⟨EMBEDDING_DIM, Distance.COSINE⟩, mkPts 5⟩ vec1 rfl (by decide) rfl

/-- C9: the point a successful `add_note_to_db` upserts carries the vector
returned for an embedding request whose `dimensions` field is
`EMBEDDING_DIM`; collection creation uses the same constant as vector size,
and `EMBEDDING_DIM = 3072`. -/
theorem embedding_dim_matches_collection (emb : EmbProvider) (t : String) (st : QdrantState)
    (n : Nat) (v : List Int)
    (hc : qcount QDRANT_COLLECTION_NAME st = .ok n)
    (he : emb (embedReqFor t) = some v) :
    (add_note_to_db emb t st).2.2 =
      [Event.countCall QDRANT_COLLECTION_NAME, Event.embeddingCall (embedReqFor t),
       Event.upsertCall QDRANT_COLLECTION_NAME [⟨n + 1, v, t⟩]]
    ∧ (embedReqFor t).dimensions = EMBEDDING_DIM
    ∧ (∀ st0, collection_exists QDRANT_COLLECTION_NAME st0 = false →
        (assure_db_collection_exists st0).2 =
          [Event.collectionExistsCall QDRANT_COLLECTION_NAME,
           Event.createCollectionCall QDRANT_COLLECTION_NAME ⟨EMBEDDING_DIM, Distance.COSINE⟩])
    ∧ EMBEDDING_DIM = 3072 := by
  refine ⟨?_, rfl, ?_, rfl⟩
  · rw [add_note_eq emb t st n v hc he]
  · intro st0 h0
    rw [assure_of_absent st0 h0]

/-- Witness for C9: the request for `"x"` asks for 3072 dimensions and a
bootstrap creation on the bare store configures vector size 3072. -/
theorem embedding_dim_matches_collection_witness :
    (embedReqFor ("x")).dimensions = 3072
    ∧ (assure_db_collection_exists stBare).2 =
      [Event.collectionExistsCall QDRANT_COLLECTION_NAME,
       Event.createCollectionCall QDRANT_COLLECTION_NAME ⟨3072, Distance.COSINE⟩] := by
  have h := embedding_dim_matches_collection embK ("x") st5 5 vec1 rfl rfl
  exact ⟨h.2.1.trans h.2.2.2, h.2.2.1 stBare (by decide)⟩

/-- C10: when a point whose id equals `count + 1` already exists in the
collection, `add_note_to_db` still succeeds — upsert raises no duplicate-id
error — and silently replaces that point, leaving the count unchanged. -/
theorem upsert_replaces_existing_id (emb : EmbProvider) (t : String) (st : QdrantState)
    (c : QCollection) (v : List Int) (p : PointStruct)
    (hl : lookupColl QDRANT_COLLECTION_NAME st = some c)
    (hp : p ∈ c.points) (hid : p.id = c.points.length + 1)
    (he : emb (embedReqFor t) = some v) :
    (add_note_to_db emb t st).1 = Except.ok ()
    ∧ lookupColl QDRANT_COLLECTION_NAME (add_note_to_db emb t st).2.1 =
        some ⟨c.cfg, c.points.map (fun q =>
          if q.id == c.points.length + 1 then ⟨c.points.length + 1, v, t⟩ else q)⟩
    ∧ qcount QDRANT_COLLECTION_NAME (add_note_to_db emb t st).2.1 = .ok c.points.length := by
  have hc : qcount QDRANT_COLLECTION_NAME st = .ok c.points.length := by
    unfold qcount
    rw [hl]
  have h1 := add_note_eq emb t st c.points.length v hc he
  have hany : c.points.any
      (fun q => q.id == (⟨c.points.length + 1, v, t⟩ : PointStruct).id) = true :=
    List.any_eq_true.mpr ⟨p, hp, by simp [hid]⟩
  have hl2 : lookupColl QDRANT_COLLECTION_NAME (add_note_to_db emb t st).2.1 =
      some ⟨c.cfg, upsertPoint c.points ⟨c.points.length + 1, v, t⟩⟩ := by
    rw [h1]
    simp only
    rw [lookupColl_upsert, hl]
    rfl
  rw [upsertPoint_replace c.points _ hany] at hl2
  refine ⟨by rw [h1], hl2, ?_⟩
  unfold qcount
  rw [hl2]
  simp [List.length_map]

/-- Witness for C10: on a store with points of ids 1 and 3 (count 2),
adding a note targets id 3, succeeds, and overwrites the point with id 3;
the count stays 2. -/
theorem upsert_replaces_existing_id_witness :
    (add_note_to_db embK ("x") stGap).1 = Except.ok ()
    ∧ lookupColl QDRANT_COLLECTION_NAME (add_note_to_db embK ("x") stGap).2.1 =
        some ⟨⟨EMBEDDING_DIM, Distance.COSINE⟩, [⟨1, vec1, "a"⟩, ⟨3, vec1, "x"⟩]⟩
    ∧ qcount QDRANT_COLLECTION_NAME (add_note_to_db embK ("x") stGap).2.1 = .ok 2 := by
  have h := upsert_replaces_existing_id embK ("x") stGap
    ⟨⟨EMBEDDING_DIM, Distance.COSINE⟩, [⟨1, vec1, "a"⟩, ⟨3, vec1, "b"⟩]⟩ vec1
    ⟨3, vec1, "b"⟩ rfl (by decide) (by decide) rfl
  exact ⟨h.1, h.2.1, h.2.2⟩

end NotesApp
